import Mathlib

/-!
Shallow embedding of the jung-chat retrieval-augmented generation core
(src/src/app/api/chat/route.ts and the client guard in src/src/app/page.tsx),
together with theorems about its retrieval and grounding logic.

JS numbers that appear here (similarity scores) are modelled as rationals;
fallible external calls are modelled by an environment that fixes, for one
request, what each external service would return. Each request handler is a
pure function of that environment returning its HTTP-level response paired
with the ordered list of external calls it attempted.
-/

namespace JungChat

/-- Role of a chat message (route.ts, interface Message). -/
inductive Role where
  | user
  | assistant
deriving DecidableEq

/-- A chat message (route.ts, interface Message). -/
structure Message where
  role : Role
  content : String
deriving DecidableEq

/-- A retrieved source (route.ts, interface Source): metadata of one chunk
plus its similarity score. -/
structure Source where
  work_title : String
  chapter : Option String
  text : String
  score : ℚ
deriving DecidableEq

/-- A raw vector-index match (route.ts lines 62-66): each metadata field and
the score may be absent, which the wrapper must default. -/
structure RawMatch where
  work_title : Option String
  chapter : Option String
  text : Option String
  score : Option ℚ
deriving DecidableEq

/-- JS string defaulting, as in the pattern given by route.ts lines 63 and 65:
an absent value and the empty string are both falsy, so both fall back to the
default. -/
def jsStrOr (x : Option String) (d : String) : String :=
  match x with
  | none => d
  | some s => if s = "" then d else s

/-- JS string-to-null defaulting (route.ts line 64): an absent value and the
empty string both become null. -/
def jsStrOrNull (x : Option String) : Option String :=
  match x with
  | none => none
  | some s => if s = "" then none else some s

/-- JS number defaulting (route.ts line 66): an absent value and 0 are falsy,
so both fall back to the default. -/
def jsNumOr (x : Option ℚ) (d : ℚ) : ℚ :=
  match x with
  | none => d
  | some q => if q = 0 then d else q

/-- The per-match normalisation inside queryPinecone (route.ts lines 62-67):
default the work title to "Unknown", the chapter to null, the text to the
empty string and the score to 0. -/
def matchToSource (m : RawMatch) : Source :=
  ⟨jsStrOr m.work_title "Unknown", jsStrOrNull m.chapter, jsStrOr m.text "", jsNumOr m.score 0⟩

/-- JS truthiness of a string-or-null value: null and the empty string are
falsy, every other string is truthy. -/
def jsTruthyStr (x : Option String) : Bool :=
  match x with
  | none => false
  | some s => !(s == "")

/-- One entry of the prompt context block (route.ts lines 73-77): a numbered
citation header, with the chapter appended when present, followed by the
source text. The argument i is the 0-based position in the context. -/
def promptEntry (i : Nat) (source : Source) : String :=
  let citation :=
    if jsTruthyStr source.chapter then
      ("[" ++ toString (i + 1) ++ "] " ++ source.work_title) ++ (", " ++ source.chapter.getD "")
    else
      "[" ++ toString (i + 1) ++ "] " ++ source.work_title
  citation ++ ("\n" ++ source.text)

/-- The list of numbered prompt entries: the mapped callback of
formatSourcesForPrompt (route.ts lines 72-78). -/
def promptEntries (sources : List Source) : List String :=
  sources.enum.map fun p => promptEntry p.1 p.2

/-- formatSourcesForPrompt (route.ts lines 71-80): the numbered entries joined
by the block delimiter. -/
def formatSourcesForPrompt (sources : List Source) : String :=
  String.intercalate "\n\n---\n\n" (promptEntries sources)

/-- One entry of the user-facing citation list (route.ts lines 85-88). -/
def responseEntry (i : Nat) (source : Source) : String :=
  let chapter := if jsTruthyStr source.chapter then ", " ++ source.chapter.getD "" else ""
  ("[" ++ toString (i + 1) ++ "] " ++ source.work_title) ++ chapter

/-- The list of numbered citation-list entries: the mapped callback of
formatSourcesForResponse (route.ts lines 84-89). -/
def responseEntries (sources : List Source) : List String :=
  sources.enum.map fun p => responseEntry p.1 p.2

/-- formatSourcesForResponse (route.ts lines 83-90): the numbered citation
entries joined by newlines. -/
def formatSourcesForResponse (sources : List Source) : String :=
  String.intercalate "\n" (responseEntries sources)

/-- The fixed behavioural rules at the head of the system prompt (route.ts
lines 106-114), up to and including the blank line before the context part. -/
def promptRules : String :=
  "You\x27re a knowledgeable guide to Jung\x27s psychology. Be concise and conversational.\n\nRules:\n- Keep responses to 2-4 sentences max\n- Be direct, not academic\n- Only cite [1], [2] etc. when directly quoting Jung\x27s words\n- Don\x27t cite for general concepts - only for specific quotes\n- If asked to elaborate, you can go deeper\n\n"

/-- The no-context fallback instruction (route.ts line 115). -/
def noContextFallback : String :=
  "No highly relevant sources found - answer from general knowledge of Jung."

/-- One content block of the generation response (route.ts lines 138-139). -/
inductive GenBlock where
  | text (s : String)
  | other
deriving DecidableEq

/-- One outbound external call, as observable at the network boundary:
the embedding request (route.ts lines 29-41, carrying the input text and the
input type), the vector-index query (route.ts lines 56-60, carrying topK and
the includeMetadata flag), and the generation request (route.ts lines 130-135,
carrying model, max token count, system instruction and messages). -/
inductive ExtCall where
  | embed (inputText : String) (inputType : String)
  | search (topK : Nat) (includeMetadata : Bool)
  | generate (model : String) (maxTokens : Nat) (system : String) (messages : List Message)
deriving DecidableEq

/-- What the three external services return for one request. The error case
stands for any fatal outcome: a non-ok HTTP response or a thrown SDK error. -/
structure Env where
  embedResult : Except Unit (List ℚ)
  searchResult : Except Unit (Option (List RawMatch))
  generateResult : Except Unit (List GenBlock)

/-- generateQueryEmbedding (route.ts lines 28-49): posts the query prefixed
with the query role marker and input type "query"; a non-ok response is a
thrown error. Returns the result and the external call attempted. -/
def generateQueryEmbedding (env : Env) (query : String) :
    Except Unit (List ℚ) × List ExtCall :=
  (env.embedResult, [ExtCall.embed ("query: " ++ query) "query"])

/-- queryPinecone (route.ts lines 52-68): embed the query, then query the
index with the given topK (the source default is 5; POST passes 6) and
includeMetadata true, then normalise the matches; an absent match list yields
the empty list. An embedding failure aborts before the search call. -/
def queryPinecone (env : Env) (query : String) (topK : Nat) :
    Except Unit (List Source) × List ExtCall :=
  match generateQueryEmbedding env query with
  | (Except.error e, calls) => (Except.error e, calls)
  | (Except.ok _embedding, calls) =>
    match env.searchResult with
    | Except.error e => (Except.error e, calls ++ [ExtCall.search topK true])
    | Except.ok matchList =>
      let sources := match matchList with
        | none => []
        | some ms => ms.map matchToSource
      (Except.ok sources, calls ++ [ExtCall.search topK true])

/-- The relevance filter applied inside POST (route.ts line 100): keep only
scores strictly above 0.7, then truncate to the first 3. -/
def relevanceFilter (allSources : List Source) : List Source :=
  (allSources.filter fun s => decide ((0.7 : ℚ) < s.score)).take 3

/-- The success payload of POST (route.ts lines 144-148). -/
structure ApiSuccess where
  message : String
  sources : String
  rawSources : List Source
deriving DecidableEq

/-- The HTTP-level response of POST: a success JSON body, or an error JSON
body with its status code (route.ts lines 144-155). -/
inductive ApiResponse where
  | json (body : ApiSuccess)
  | errorJson (error : String) (status : Nat)
deriving DecidableEq

/-- POST (route.ts lines 92-156): retrieve sources with topK 6, filter them,
assemble the system prompt (with the no-context fallback when the filtered
list is empty), call generation with the conversation plus the current query,
and answer with message, rendered citation list and raw sources. Any failure
along the way is caught and answered by the generic error with status 500.
Returns the response and the ordered external calls attempted. -/
def POST (env : Env) (messages : List Message) (query : String) :
    ApiResponse × List ExtCall :=
  match queryPinecone env query 6 with
  | (Except.error _, calls) =>
    (ApiResponse.errorJson "Failed to process request" 500, calls)
  | (Except.ok allSources, calls) =>
    let sources := relevanceFilter allSources
    let context := formatSourcesForPrompt sources
    let systemPrompt :=
      promptRules ++
        (if sources.length > 0 then "Sources:\n" ++ context else noContextFallback)
    let claudeMessages := messages ++ [⟨Role.user, query⟩]
    let callsAfterGen :=
      calls ++ [ExtCall.generate "claude-sonnet-4-20250514" 550 systemPrompt claudeMessages]
    let response :=
      match env.generateResult with
      | Except.error _ => ApiResponse.errorJson "Failed to process request" 500
      | Except.ok content =>
        match content with
        | [] => ApiResponse.errorJson "Failed to process request" 500
        | block :: _ =>
          let assistantMessage :=
            match block with
            | GenBlock.text s => s
            | GenBlock.other => ""
          ApiResponse.json ⟨assistantMessage, formatSourcesForResponse sources, sources⟩
    (response, callsAfterGen)

/-- JS String.prototype.trim, modelled structurally: strip leading and
trailing whitespace characters (page.tsx line 136 uses query.trim()). -/
def jsTrim (s : String) : String :=
  String.mk (((s.data.dropWhile Char.isWhitespace).reverse.dropWhile Char.isWhitespace).reverse)

/-- The request body the UI sends to the chat API (page.tsx line 145). -/
structure ChatRequest where
  messages : List Message
  query : String
deriving DecidableEq

/-- handleExplore (page.tsx lines 135-146), reduced to what it sends: when the
trimmed query is empty, or a request is already in flight, it returns without
issuing any API request; otherwise it posts an empty history and the query. -/
def handleExplore (query : String) (isLoading : Bool) : Option ChatRequest :=
  if jsTrim query == "" || isLoading then none
  else some ⟨[], query⟩

/-- A labelled source with a given score, for concrete scenarios. -/
def mkSrc (n : Nat) (q : ℚ) : Source :=
  ⟨"W" ++ toString n, none, "t" ++ toString n, q⟩

/-- Scenario A of the spec: six search results with descending scores. -/
def scenarioA : List Source :=
  [mkSrc 1 0.9, mkSrc 2 0.82, mkSrc 3 0.75, mkSrc 4 0.71, mkSrc 5 0.6, mkSrc 6 0.4]

/-- Two raw matches whose scores are at or below the 0.7 threshold. -/
def lowMatches : List RawMatch :=
  [⟨some "W1", none, some "t1", some 0.6⟩, ⟨some "W2", none, some "t2", some 0.4⟩]

/-- An environment whose embedding call fails. -/
def envEmbedFail : Env :=
  ⟨Except.error (), Except.error (), Except.error ()⟩

/-- An environment where every call succeeds and the search returns no match. -/
def envNoMatches : Env :=
  ⟨Except.ok [], Except.ok (some []), Except.ok [GenBlock.text "ans"]⟩

/-- An environment where every call succeeds and every match scores at or
below the threshold. -/
def envLow : Env :=
  ⟨Except.ok [], Except.ok (some lowMatches), Except.ok [GenBlock.text "ans"]⟩

/-- A source with a chapter, for the citation-numbering witness. -/
def srcW : Source :=
  ⟨"Title", some "Ch 1", "Body", 0.9⟩

/-- Evaluation of queryPinecone when the embedding call fails. -/
theorem queryPinecone_embed_error (env : Env) (q : String) (k : Nat)
    (h : env.embedResult = Except.error ()) :
    queryPinecone env q k = (Except.error (), [ExtCall.embed ("query: " ++ q) "query"]) := by
  simp [queryPinecone, generateQueryEmbedding, h]

/-- Evaluation of queryPinecone when both external calls succeed. -/
theorem queryPinecone_ok_eq (env : Env) (q : String) (k : Nat) (vec : List ℚ)
    (rawMs : List RawMatch) (hE : env.embedResult = Except.ok vec)
    (hS : env.searchResult = Except.ok (some rawMs)) :
    queryPinecone env q k =
      (Except.ok (rawMs.map matchToSource),
        [ExtCall.embed ("query: " ++ q) "query", ExtCall.search k true]) := by
  simp [queryPinecone, generateQueryEmbedding, hE, hS]

/-- Claim C1: the relevance filter (threshold 0.7, max 3) returns at most 3
results, never more than the input, every kept score is strictly above 0.7,
and on the six scenario-A scores 0.9, 0.82, 0.75, 0.71, 0.6, 0.4 it keeps
exactly the three results scored 0.9, 0.82 and 0.75. -/
theorem relevanceFilter_bounds (l : List Source) :
    (relevanceFilter l).length ≤ 3 ∧
    (relevanceFilter l).length ≤ l.length ∧
    (∀ s, s ∈ relevanceFilter l → (0.7 : ℚ) < s.score) ∧
    relevanceFilter scenarioA = [mkSrc 1 0.9, mkSrc 2 0.82, mkSrc 3 0.75] := by
  refine ⟨List.length_take_le 3 _, ?_, ?_, ?_⟩
  · exact ((List.take_sublist 3 _).trans (List.filter_sublist l)).length_le
  · intro s hs
    have hf := List.mem_of_mem_take hs
    exact of_decide_eq_true (List.mem_filter.mp hf).2
  · norm_num [relevanceFilter, scenarioA, mkSrc, List.filter]

/-- Witness for claim C1 at scenario A. -/
theorem relevanceFilter_bounds_witness :
    (relevanceFilter scenarioA).length ≤ 3 ∧
    (relevanceFilter scenarioA).length ≤ scenarioA.length ∧
    (0.7 : ℚ) < (mkSrc 1 0.9).score ∧
    relevanceFilter scenarioA = [mkSrc 1 0.9, mkSrc 2 0.82, mkSrc 3 0.75] := by
  have h := relevanceFilter_bounds scenarioA
  refine ⟨h.1, h.2.1, ?_, h.2.2.2⟩
  exact h.2.2.1 (mkSrc 1 0.9) (by rw [h.2.2.2]; exact List.mem_cons_self _ _)

/-- Claim C6: the relevance filter is order-preserving: its output is a
subsequence of its input, so any two kept elements appear in the output in
their input order. -/
theorem relevanceFilter_order_preserving (l : List Source) :
    (relevanceFilter l).Sublist l :=
  (List.take_sublist 3 _).trans (List.filter_sublist l)

/-- Witness for claim C6 at scenario A. -/
theorem relevanceFilter_order_preserving_witness :
    (relevanceFilter scenarioA).Sublist scenarioA :=
  relevanceFilter_order_preserving scenarioA

/-- Claim C10: the vector-search wrapper defaults every field of a match:
a missing work title becomes "Unknown", missing text becomes the empty
string, a missing or empty chapter becomes null, a missing score becomes 0,
and a match with a missing score can never be kept by the relevance filter. -/
theorem matchToSource_defaults (m : RawMatch) (l : List Source) :
    (m.work_title = none → (matchToSource m).work_title = "Unknown") ∧
    (m.text = none → (matchToSource m).text = "") ∧
    ((m.chapter = none ∨ m.chapter = some "") → (matchToSource m).chapter = none) ∧
    (m.score = none → (matchToSource m).score = 0) ∧
    (m.score = none → matchToSource m ∉ relevanceFilter l) := by
  refine ⟨?_, ?_, ?_, ?_, ?_⟩
  · intro h
    simp [matchToSource, jsStrOr, h]
  · intro h
    simp [matchToSource, jsStrOr, h]
  · rintro (h | h) <;> simp [matchToSource, jsStrOrNull, h]
  · intro h
    simp [matchToSource, jsNumOr, h]
  · intro h hmem
    have hf := List.mem_of_mem_take hmem
    have hsc := of_decide_eq_true (List.mem_filter.mp hf).2
    rw [show (matchToSource m).score = 0 by simp [matchToSource, jsNumOr, h]] at hsc
    norm_num at hsc

/-- Witness for claim C10 at the fully absent match. -/
theorem matchToSource_defaults_witness :
    (matchToSource ⟨none, none, none, none⟩).work_title = "Unknown" ∧
    (matchToSource ⟨none, none, none, none⟩).text = "" ∧
    (matchToSource ⟨none, none, none, none⟩).chapter = none ∧
    (matchToSource ⟨none, none, none, none⟩).score = 0 ∧
    matchToSource ⟨none, none, none, none⟩ ∉ relevanceFilter scenarioA := by
  have h := matchToSource_defaults ⟨none, none, none, none⟩ scenarioA
  exact ⟨h.1 rfl, h.2.1 rfl, h.2.2.1 (Or.inl rfl), h.2.2.2.1 rfl, h.2.2.2.2 rfl⟩

/-- Claim C3 counterexample: the API route itself never rejects a blank
query; invoked directly with the empty query, it still attempts the
embedding call, so such a request is not rejected before the embedding
step. -/
theorem emptyQuery_embedding_attempted :
    ExtCall.embed ("query: " ++ "") "query" ∈ (POST envEmbedFail [] "").2 := by
  decide

/-- Claim C3 as amended: the blank-query rejection lives in the UI client,
outside the orchestrator: whenever the trimmed query is empty (the query is
empty or whitespace-only), handleExplore returns without issuing any chat
request, so no embedding, search or generation call results from that input;
the API route itself performs no such validation. -/
theorem blank_query_rejected_clientside (query : String) (isLoading : Bool)
    (h : jsTrim query = "") :
    handleExplore query isLoading = none := by
  simp [handleExplore, h]

/-- Witness for the amended claim C3 at a whitespace-only query. -/
theorem blank_query_rejected_clientside_witness :
    jsTrim "   " = "" ∧ handleExplore "   " false = none :=
  ⟨by decide, blank_query_rejected_clientside "   " false (by decide)⟩

/-- Claim C9: the first external call of every request is the embedding call,
whose input text is the query prefixed by the query role marker; that input
is neither the bare query nor the passage-marked form. -/
theorem embedding_uses_query_marker (env : Env) (ms : List Message) (q : String) :
    (POST env ms q).2.head? = some (ExtCall.embed ("query: " ++ q) "query") ∧
    "query: " ++ q ≠ q ∧
    "query: " ++ q ≠ "passage: " ++ q := by
  refine ⟨?_, ?_, ?_⟩
  · rcases env with ⟨eR, sR, gR⟩
    rcases eR with e | vec
    · simp [POST, queryPinecone, generateQueryEmbedding]
    · rcases sR with e | mList <;>
        simp [POST, queryPinecone, generateQueryEmbedding]
  · intro hEq
    have hlen := congrArg String.length hEq
    rw [String.length_append] at hlen
    have h7 : ("query: " : String).length = 7 := rfl
    omega
  · intro hEq
    have hlen := congrArg String.length hEq
    rw [String.length_append, String.length_append] at hlen
    have h7 : ("query: " : String).length = 7 := rfl
    have h9 : ("passage: " : String).length = 9 := rfl
    omega

/-- Witness for claim C9 at a concrete request. -/
theorem embedding_uses_query_marker_witness :
    (POST envEmbedFail [] "hi").2.head? = some (ExtCall.embed ("query: " ++ "hi") "query") ∧
    "query: " ++ "hi" ≠ "hi" ∧
    "query: " ++ "hi" ≠ "passage: " ++ "hi" :=
  embedding_uses_query_marker envEmbedFail [] "hi"

/-- The rendered citation list of an empty context is the empty string. -/
theorem formatSourcesForResponse_nil : formatSourcesForResponse [] = "" := rfl

/-- Claim C2: at every position of the retrieval context, the prompt
instruction block entry and the user-facing citation entry carry the same
1-based positional citation number followed by the work title of the source
at that input position, and both lists have one entry per source in input
order. -/
theorem citation_numbering_agrees (sources : List Source) (i : Nat) (s : Source)
    (h : sources[i]? = some s) :
    (promptEntries sources).length = sources.length ∧
    (responseEntries sources).length = sources.length ∧
    ∃ restP restR : String,
      (promptEntries sources)[i]? =
        some (("[" ++ toString (i + 1) ++ "] " ++ s.work_title) ++ restP) ∧
      (responseEntries sources)[i]? =
        some (("[" ++ toString (i + 1) ++ "] " ++ s.work_title) ++ restR) := by
  have hp : (promptEntries sources)[i]? = some (promptEntry i s) := by
    simp [promptEntries, List.getElem?_map, List.getElem?_enum, h]
  have hr : (responseEntries sources)[i]? = some (responseEntry i s) := by
    simp [responseEntries, List.getElem?_map, List.getElem?_enum, h]
  refine ⟨by simp [promptEntries], by simp [responseEntries], ?_⟩
  cases hc : jsTruthyStr s.chapter
  · refine ⟨"\n" ++ s.text, "", ?_, ?_⟩
    · rw [hp]
      simp [promptEntry, hc]
    · rw [hr]
      simp [responseEntry, hc]
  · refine ⟨(", " ++ s.chapter.getD "") ++ ("\n" ++ s.text), ", " ++ s.chapter.getD "", ?_, ?_⟩
    · rw [hp]
      simp [promptEntry, hc, String.append_assoc]
    · rw [hr]
      simp [responseEntry, hc]

/-- Witness for claim C2 at a one-element context. -/
theorem citation_numbering_agrees_witness :
    (promptEntries [srcW]).length = ([srcW] : List Source).length ∧
    (responseEntries [srcW]).length = ([srcW] : List Source).length ∧
    ∃ restP restR : String,
      (promptEntries [srcW])[0]? =
        some (("[" ++ toString (0 + 1) ++ "] " ++ srcW.work_title) ++ restP) ∧
      (responseEntries [srcW])[0]? =
        some (("[" ++ toString (0 + 1) ++ "] " ++ srcW.work_title) ++ restR) :=
  citation_numbering_agrees [srcW] 0 srcW rfl

/-- Claim C4: when the embedding and the search succeed but every match
scores at or below the threshold, the orchestrator does not fail: the
filtered context is empty, the generation call is still issued and its
system instruction is the no-context fallback, and when generation succeeds
the response is a success whose citation list and raw source list are
empty. -/
theorem noContext_fallback_used (env : Env) (ms : List Message) (q : String)
    (vec : List ℚ) (rawMs : List RawMatch)
    (hE : env.embedResult = Except.ok vec)
    (hS : env.searchResult = Except.ok (some rawMs))
    (hlow : ∀ m ∈ rawMs, (matchToSource m).score ≤ 0.7) :
    ExtCall.generate "claude-sonnet-4-20250514" 550 (promptRules ++ noContextFallback)
        (ms ++ [⟨Role.user, q⟩]) ∈ (POST env ms q).2 ∧
    ∀ t rest, env.generateResult = Except.ok (GenBlock.text t :: rest) →
      (POST env ms q).1 = ApiResponse.json ⟨t, "", []⟩ := by
  have hfil : relevanceFilter (rawMs.map matchToSource) = [] := by
    have hnil :
        (rawMs.map matchToSource).filter (fun s => decide ((0.7 : ℚ) < s.score)) = [] := by
      rw [List.filter_eq_nil_iff]
      intro a ha
      rcases List.mem_map.mp ha with ⟨m, hm, rfl⟩
      simpa using not_lt.mpr (hlow m hm)
    simp [relevanceFilter, hnil]
  have hq := queryPinecone_ok_eq env q 6 vec rawMs hE hS
  constructor
  · unfold POST
    rw [hq]
    simp [hfil]
  · intro t rest hG
    unfold POST
    rw [hq]
    simp [hfil, hG, formatSourcesForResponse_nil]

/-- Witness for claim C4 at an environment whose matches all score below the
threshold. -/
theorem noContext_fallback_used_witness :
    ExtCall.generate "claude-sonnet-4-20250514" 550 (promptRules ++ noContextFallback)
        ([] ++ [⟨Role.user, "hi"⟩]) ∈ (POST envLow [] "hi").2 ∧
    (POST envLow [] "hi").1 = ApiResponse.json ⟨"ans", "", []⟩ := by
  have hlow : ∀ m ∈ lowMatches, (matchToSource m).score ≤ 0.7 := by
    intro m hm
    simp [lowMatches] at hm
    rcases hm with rfl | rfl <;> norm_num [matchToSource, jsNumOr]
  have h := noContext_fallback_used envLow [] "hi" [] lowMatches rfl rfl hlow
  exact ⟨h.1, h.2 "ans" [] rfl⟩

/-- Claim C5: whenever any of the three external calls fails, the response is
exactly the generic error with status 500: no partial answer text and no
partial citation list. -/
theorem external_failure_generic_error (env : Env) (ms : List Message) (q : String)
    (h : env.embedResult = Except.error () ∨ env.searchResult = Except.error () ∨
      env.generateResult = Except.error ()) :
    (POST env ms q).1 = ApiResponse.errorJson "Failed to process request" 500 := by
  rcases env with ⟨eR, sR, gR⟩
  rcases eR with e | vec
  · cases e
    simp [POST, queryPinecone, generateQueryEmbedding]
  · rcases sR with e | mList
    · cases e
      simp [POST, queryPinecone, generateQueryEmbedding]
    · rcases gR with e | content
      · cases e
        simp [POST, queryPinecone, generateQueryEmbedding]
      · rcases h with h | h | h <;> simp at h

/-- Witness for claim C5 at a failing embedding call. -/
theorem external_failure_generic_error_witness :
    (POST envEmbedFail [] "hi").1 = ApiResponse.errorJson "Failed to process request" 500 :=
  external_failure_generic_error envEmbedFail [] "hi" (Or.inl rfl)

/-- Claim C7: when the embedding call fails, the request terminates with the
generic error and its trace is exactly the one embedding call: no search and
no generation call was attempted, and the response carries no citations. -/
theorem embed_failure_stops_pipeline (env : Env) (ms : List Message) (q : String)
    (h : env.embedResult = Except.error ()) :
    (POST env ms q).1 = ApiResponse.errorJson "Failed to process request" 500 ∧
    (POST env ms q).2 = [ExtCall.embed ("query: " ++ q) "query"] := by
  have hq := queryPinecone_embed_error env q 6 h
  constructor <;> (unfold POST; rw [hq])

/-- Witness for claim C7 at a failing embedding call. -/
theorem embed_failure_stops_pipeline_witness :
    (POST envEmbedFail [] "hi").1 = ApiResponse.errorJson "Failed to process request" 500 ∧
    (POST envEmbedFail [] "hi").2 = [ExtCall.embed ("query: " ++ "hi") "query"] :=
  embed_failure_stops_pipeline envEmbedFail [] "hi" rfl

/-- Claim C8: every search call issued by the orchestrator requests topK = 6
candidates, while a successful response carries at most 3 raw sources (the
filtered context the prompt receives). -/
theorem search_requests_six (env : Env) (ms : List Message) (q : String) :
    (∀ k b, ExtCall.search k b ∈ (POST env ms q).2 → k = 6) ∧
    ∀ body, (POST env ms q).1 = ApiResponse.json body → body.rawSources.length ≤ 3 := by
  rcases env with ⟨eR, sR, gR⟩
  rcases eR with e | vec
  · constructor
    · intro k b hk
      simp [POST, queryPinecone, generateQueryEmbedding] at hk
    · intro body hb
      simp [POST, queryPinecone, generateQueryEmbedding] at hb
  · rcases sR with e | mList
    · constructor
      · intro k b hk
        simp [POST, queryPinecone, generateQueryEmbedding] at hk
        exact hk.1
      · intro body hb
        simp [POST, queryPinecone, generateQueryEmbedding] at hb
    · rcases gR with e | content
      · constructor
        · intro k b hk
          simp [POST, queryPinecone, generateQueryEmbedding] at hk
          exact hk.1
        · intro body hb
          simp [POST, queryPinecone, generateQueryEmbedding] at hb
      · rcases content with _ | ⟨blk, rest⟩
        · constructor
          · intro k b hk
            simp [POST, queryPinecone, generateQueryEmbedding] at hk
            exact hk.1
          · intro body hb
            simp [POST, queryPinecone, generateQueryEmbedding] at hb
        · constructor
          · intro k b hk
            simp [POST, queryPinecone, generateQueryEmbedding] at hk
            exact hk.1
          · intro body hb
            simp [POST, queryPinecone, generateQueryEmbedding] at hb
            subst hb
            exact List.length_take_le 3 _

/-- Witness for claim C8 at a successful no-match request. -/
theorem search_requests_six_witness :
    (ExtCall.search 6 true ∈ (POST envNoMatches [] "hi").2 ∧ (6 : Nat) = 6) ∧
    ((POST envNoMatches [] "hi").1 = ApiResponse.json ⟨"ans", "", []⟩ ∧
      (ApiSuccess.mk "ans" "" []).rawSources.length ≤ 3) := by
  have h := search_requests_six envNoMatches [] "hi"
  have hmem : ExtCall.search 6 true ∈ (POST envNoMatches [] "hi").2 := by decide
  have hresp : (POST envNoMatches [] "hi").1 = ApiResponse.json ⟨"ans", "", []⟩ := by decide
  exact ⟨⟨hmem, h.1 6 true hmem⟩, hresp, h.2 ⟨"ans", "", []⟩ hresp⟩

end JungChat
